import Mathlib

/-!
Verification of the BSF gas-simulator core (src/BSF_GasSim_v52.py) against its
design specification.

Shallow embedding over ℝ: the Python source computes with IEEE floats and
numpy's `sin`/`exp`/`**`; we model those by the corresponding real functions.
`round(x, 1)` (rounding to one decimal place) is modelled by `roundTo1` below,
using Mathlib's integer `round`; none of the theorems proved here evaluate the
rounding at an exact half-tie, which is the only place where Python's
half-to-even convention could differ from `round`'s half-up convention.

Threshold constants are the module-level defaults of the source
(`CO2_S1..S3`, `NH3_S1..S3`); the sidebar can rebind them at run time, but the
claims are about the staging functions with these defaults.
-/

set_option maxRecDepth 8000

namespace BSFGasSim

open Real

/-- Zone 01 dimensions (source: `Z1_L, Z1_B, Z1_H = 21.359, 9.750, 3.800`). -/
def Z1_L : ℝ := 21.359
def Z1_B : ℝ := 9.750
def Z1_H : ℝ := 3.800

/-- Zone 02 dimensions (source: `Z2_L, Z2_B, Z2_H = 3.800, 2.900, 3.800`). -/
def Z2_L : ℝ := 3.800
def Z2_B : ℝ := 2.900
def Z2_H : ℝ := 3.800

/-- `VOL_Z1 = Z1_L * Z1_B * Z1_H` (≈ 791.35 m³). -/
def VOL_Z1 : ℝ := Z1_L * Z1_B * Z1_H

/-- `VOL_Z2 = Z2_L * Z2_B * Z2_H` (≈ 41.88 m³). -/
def VOL_Z2 : ℝ := Z2_L * Z2_B * Z2_H

/-- `RHO_CO2 = 1.842` kg/m³. -/
def RHO_CO2 : ℝ := 1.842

/-- `RHO_NH3 = 0.769` kg/m³. -/
def RHO_NH3 : ℝ := 0.769

/-- `CO2_AMBIENT = 420.0` ppm. -/
def CO2_AMBIENT : ℝ := 420.0

/-- `CO2_DAYS = 8`. -/
def CO2_DAYS : ℝ := 8

/-- `CO2_RATE_AVG = 0.125` g/kg/h (session-state default). -/
def CO2_RATE_AVG : ℝ := 0.125

/-- `NH3_RATE_BASE = 0.001` g/kg/h (session-state default). -/
def NH3_RATE_BASE : ℝ := 0.001

/-- Threshold defaults: `CO2_S1 = 3_000; CO2_S2 = 5_000; CO2_S3 = 10_000`. -/
def CO2_S1 : ℝ := 3000
def CO2_S2 : ℝ := 5000
def CO2_S3 : ℝ := 10000

/-- Threshold defaults: `NH3_S1 = 12; NH3_S2 = 25; NH3_S3 = 50`. -/
def NH3_S1 : ℝ := 12
def NH3_S2 : ℝ := 25
def NH3_S3 : ℝ := 50

/-- Colour constants used by the staging tuples (hex strings in the source). -/
def RED : String := "#EF476F"
def ORANGE : String := "#FF9B42"
def GREEN : String := "#06D6A0"
def MUTED : String := "#4a6888"

/-- Python's `round(x, 1)`: round to one decimal place. -/
noncomputable def roundTo1 (x : ℝ) : ℝ := (round (10 * x) : ℤ) / 10

/-- `fan_m3h(pct, vol, max_q=None)`:
`if max_q is None: max_q = vol * 6.0; return max(pct / 100.0 * max_q, 1.0)`. -/
noncomputable def fan_m3h (pct vol : ℝ) (max_q : Option ℝ) : ℝ :=
  let mq := max_q.getD (vol * 6.0)
  max (pct / 100.0 * mq) 1.0

/-- `co2_rate_g_kg_h(day, rate_avg=None)`:
`r * (0.3 + 2.7 * np.sin(np.pi * (day / CO2_DAYS)) ** 1.8)` with
`r = rate_avg if rate_avg is not None else CO2_RATE_AVG`. -/
noncomputable def co2_rate_g_kg_h (day : ℝ) (rate_avg : Option ℝ) : ℝ :=
  let r := rate_avg.getD CO2_RATE_AVG
  let x := day / CO2_DAYS
  r * (0.3 + 2.7 * Real.sin (π * x) ^ (1.8 : ℝ))

/-- `nh3_rate_g_kg_h(day, rate_base=None)`:
linear branch for `x < 0.45`, exponential branch otherwise. -/
noncomputable def nh3_rate_g_kg_h (day : ℝ) (rate_base : Option ℝ) : ℝ :=
  let b := rate_base.getD NH3_RATE_BASE
  let x := day / CO2_DAYS
  if x < 0.45 then b * (1.0 + 0.5 * x / 0.45)
  else b * 1.5 * Real.exp (2.6 * (x - 0.45))

/-- `calc_ppm(mass_kg, rate_g_kg_h, rho_gas, flow_pct, vol, ambient)`:
steady-state mass balance, result rounded to one decimal. -/
noncomputable def calc_ppm (mass_kg rate_g_kg_h rho_gas flow_pct vol ambient : ℝ) : ℝ :=
  let E_kg_h := mass_kg * rate_g_kg_h / 1000.0
  let E_m3_h := E_kg_h / rho_gas
  let Q_m3_h := fan_m3h flow_pct vol none
  roundTo1 (ambient + E_m3_h / Q_m3_h * 1000000)

/-- `macro_co2(mass_kg, flow_pct, vol, day, co2_r=None)`. -/
noncomputable def macro_co2 (mass_kg flow_pct vol day : ℝ) (co2_r : Option ℝ) : ℝ :=
  let r := co2_r.getD CO2_RATE_AVG
  calc_ppm mass_kg (co2_rate_g_kg_h day (some r)) RHO_CO2 flow_pct vol CO2_AMBIENT

/-- `macro_nh3(mass_kg, flow_pct, vol, day, nh3_r=None)` (ambient 0.02 ppm). -/
noncomputable def macro_nh3 (mass_kg flow_pct vol day : ℝ) (nh3_r : Option ℝ) : ℝ :=
  let b := nh3_r.getD NH3_RATE_BASE
  calc_ppm mass_kg (nh3_rate_g_kg_h day (some b)) RHO_NH3 flow_pct vol 0.02

/-- `autopilot_flow(co2, nh3, day, base_pct)` — the `day` argument is unused in
the body, exactly as in the source. -/
noncomputable def autopilot_flow (co2 nh3 _day base_pct : ℝ) : ℝ :=
  if co2 > CO2_S3 ∨ nh3 > NH3_S3 then 100
  else if co2 > CO2_S2 ∨ nh3 > NH3_S2 then 70
  else if co2 > CO2_S1 ∨ nh3 > NH3_S1 then 40
  else base_pct

/-- `fan_stage(co2, nh3)` returning `(stage_index, label, colour, fan_percent)`. -/
noncomputable def fan_stage (co2 nh3 : ℝ) : ℕ × String × String × ℝ :=
  if co2 > CO2_S3 ∨ nh3 > NH3_S3 then (3, "ALARM — 100%", RED, 100)
  else if co2 > CO2_S2 ∨ nh3 > NH3_S2 then (2, "STUFE 2 — 70%", ORANGE, 70)
  else if co2 > CO2_S1 ∨ nh3 > NH3_S1 then (1, "STUFE 1 — 40%", GREEN, 40)
  else (0, "ECO — 20%", MUTED, 20)

/-- `get_stufe(co2, nh3)` returning `(stage_index, label, colour, tag)`. -/
noncomputable def get_stufe (co2 nh3 : ℝ) : ℕ × String × String × String :=
  if co2 > CO2_S3 ∨ nh3 > NH3_S3 then (3, "ALARM — EVAKUIERUNG", RED, "red")
  else if co2 > CO2_S2 ∨ nh3 > NH3_S2 then (2, "WARNUNG opt/akust", ORANGE, "ora")
  else if co2 > CO2_S1 ∨ nh3 > NH3_S1 then (1, "BETRIEB STUFE 1", GREEN, "grn")
  else (0, "STANDBY / ECO", MUTED, "")

/-- The per-series history append with trimming (source tick loop:
`st.session_state[lst].append(val); if len(...) > 200: ... = ...[-200:]`).
Python's `l[-200:]` keeps the last 200 entries, i.e. drops `length - 200`
from the front. -/
def appendTrim {α : Type} (l : List α) (v : α) : List α :=
  let l2 := l ++ [v]
  if l2.length > 200 then l2.drop (l2.length - 200) else l2

/-- Session-state defaults `_def` and the fields the autopilot tick mutates. -/
structure SimState where
  sim_active : Bool
  sim_step : ℕ
  mast_day : ℝ
  flow_z1 : ℝ
  flow_z2 : ℝ
  hist_t : List ℝ
  hist_co2_z1 : List ℝ
  hist_nh3_z1 : List ℝ
  hist_co2_z2 : List ℝ
  hist_nh3_z2 : List ℝ
  hist_flow_z1 : List ℝ

/-- The `_def` dictionary of session-state defaults:
`sim_active=False, sim_step=0, mast_day=1.0, flow_z1=30.0, flow_z2=25.0,`
single-sample history lists. -/
noncomputable def defState : SimState :=
  { sim_active := false, sim_step := 0, mast_day := 1.0
    flow_z1 := 30.0, flow_z2 := 25.0
    hist_t := [0.0], hist_co2_z1 := [420.0], hist_nh3_z1 := [0.2]
    hist_co2_z2 := [420.0], hist_nh3_z2 := [0.2], hist_flow_z1 := [30.0] }

/-- The RESET button handler: `for k, v in _def.items(): st.session_state[k] = v`
— restores every default, whatever the current state is. -/
noncomputable def reset (_s : SimState) : SimState := defState

/-- One autopilot tick (source block `if st.session_state.sim_active:` at the
bottom of the script): increment `sim_step`, recompute `mast_day` as
`min(8.0, 1.0 + step * (7.0/120.0))`, choose the new airflows by staging the
ppm evaluated at 0 % airflow, then compute the recorded ppm at the NEW
airflows, and append one sample to every history series. `mass_z1`/`mass_z2`
are the sidebar slider values in tonnes. -/
noncomputable def tick (mass_z1 mass_z2 : ℝ) (s : SimState) : SimState :=
  let step := s.sim_step + 1
  let mast_day : ℝ := min 8.0 (1.0 + (step : ℝ) * (7.0 / 120.0))
  let flow_z1 := autopilot_flow
    (macro_co2 (mass_z1 * 1000) 0 VOL_Z1 mast_day none)
    (macro_nh3 (mass_z1 * 1000) 0 VOL_Z1 mast_day none) mast_day 28.0
  let flow_z2 := autopilot_flow
    (macro_co2 (mass_z2 * 1000) 0 VOL_Z2 mast_day none)
    (macro_nh3 (mass_z2 * 1000) 0 VOL_Z2 mast_day none) mast_day 22.0
  let co2_z1 := macro_co2 (mass_z1 * 1000) flow_z1 VOL_Z1 mast_day none
  let nh3_z1 := macro_nh3 (mass_z1 * 1000) flow_z1 VOL_Z1 mast_day none
  let co2_z2 := macro_co2 (mass_z2 * 1000) flow_z2 VOL_Z2 mast_day none
  let nh3_z2 := macro_nh3 (mass_z2 * 1000) flow_z2 VOL_Z2 mast_day none
  let t_val := (step : ℝ) * 0.25 / 60.0
  { s with
    sim_step := step, mast_day := mast_day
    flow_z1 := flow_z1, flow_z2 := flow_z2
    hist_t := appendTrim s.hist_t t_val
    hist_co2_z1 := appendTrim s.hist_co2_z1 co2_z1
    hist_nh3_z1 := appendTrim s.hist_nh3_z1 nh3_z1
    hist_co2_z2 := appendTrim s.hist_co2_z2 co2_z2
    hist_nh3_z2 := appendTrim s.hist_nh3_z2 nh3_z2
    hist_flow_z1 := appendTrim s.hist_flow_z1 flow_z1 }

/-- A concrete active state (the 120th tick: the clamp at day 8 is reached),
with the previous tick's airflow at the 30 % default. -/
noncomputable def preTickState : SimState :=
  { sim_active := true, sim_step := 119, mast_day := 8
    flow_z1 := 30, flow_z2 := 25
    hist_t := [0], hist_co2_z1 := [420], hist_nh3_z1 := [0.2]
    hist_co2_z2 := [420], hist_nh3_z2 := [0.2], hist_flow_z1 := [30] }

/-- The linear branch formula of `nh3_rate_g_kg_h` (the `x < 0.45` arm). -/
noncomputable def nh3_lin_branch (day b : ℝ) : ℝ :=
  b * (1.0 + 0.5 * (day / CO2_DAYS) / 0.45)

/-- The exponential branch formula of `nh3_rate_g_kg_h` (the `x ≥ 0.45` arm). -/
noncomputable def nh3_exp_branch (day b : ℝ) : ℝ :=
  b * 1.5 * Real.exp (2.6 * (day / CO2_DAYS - 0.45))

/-- `appendTrim` in closed form when the buffer respects its capacity. -/
theorem appendTrim_eq {α : Type} (l : List α) (v : α) (h : l.length ≤ 200) :
    appendTrim l v = (l ++ [v]).drop ((l.length + 1) - 200) := by
  unfold appendTrim
  simp only [List.length_append, List.length_singleton]
  split_ifs with h2
  · rfl
  · have : l.length + 1 - 200 = 0 := by omega
    rw [this, List.drop_zero]

/-- `appendTrim` preserves the capacity invariant. -/
theorem appendTrim_length_le {α : Type} (l : List α) (v : α) (h : l.length ≤ 200) :
    (appendTrim l v).length ≤ 200 := by
  rw [appendTrim_eq l v h, List.length_drop]
  simp only [List.length_append, List.length_singleton]
  omega

/-- Folding `appendTrim` over any input keeps exactly the last 200 entries. -/
theorem foldl_appendTrim {α : Type} (xs : List α) :
    ∀ l : List α, l.length ≤ 200 →
      List.foldl appendTrim l xs = (l ++ xs).drop ((l ++ xs).length - 200) := by
  induction xs with
  | nil =>
    intro l h
    rw [List.foldl_nil, List.append_nil, Nat.sub_eq_zero_of_le h, List.drop_zero]
  | cons v rest ih =>
    intro l h
    rw [List.foldl_cons, ih (appendTrim l v) (appendTrim_length_le l v h),
      appendTrim_eq l v h]
    have hk : (l.length + 1) - 200 ≤ (l ++ [v]).length := by
      simp only [List.length_append, List.length_singleton]; omega
    rw [← List.drop_append_of_le_length hk, List.drop_drop]
    congr 1
    · simp only [List.length_drop, List.length_append, List.length_singleton,
        List.length_cons, List.length_nil]
      omega
    · simp

/-- C6 — "Every history series keeps the invariant length ≤ 200 after each
append, preserves insertion order, and evicts oldest-first: starting from an
empty buffer, appending 250 samples leaves exactly 200 entries, namely the
last 200 appended in their original relative order, with the oldest 50
discarded." -/
theorem claim_C6_history_fifo :
    (∀ (l : List ℝ) (v : ℝ), l.length ≤ 200 → (appendTrim l v).length ≤ 200) ∧
    (∀ xs : List ℝ, xs.length = 250 →
      List.foldl appendTrim [] xs = xs.drop 50 ∧
        (List.foldl appendTrim [] xs).length = 200) := by
  refine ⟨appendTrim_length_le, fun xs hxs => ?_⟩
  have h := foldl_appendTrim xs [] (by simp)
  rw [List.nil_append] at h
  rw [h, hxs]
  exact ⟨rfl, by rw [List.length_drop, hxs]⟩

/-- C6 witness: a concrete 250-sample run. -/
theorem claim_C6_history_fifo_witness :
    (appendTrim (List.replicate 200 (0 : ℝ)) 1).length ≤ 200 ∧
      List.foldl appendTrim [] (List.replicate 250 (0 : ℝ)) =
        (List.replicate 250 (0 : ℝ)).drop 50 :=
  ⟨claim_C6_history_fifo.1 _ 1 (by simp),
   (claim_C6_history_fifo.2 _ (by simp)).1⟩

/-- C8 — "reset() is idempotent: after any sequence of ticks and appends, two
consecutive reset() calls yield identical SimulationState (sim_active=False,
sim_step=0, mast_day=1.0, default flows) and a history buffer equal to the
initial single-sample buffer."  `reset` restores every `_def` default, so a
second call is a no-op. -/
theorem claim_C8_reset_idempotent (s : SimState) :
    reset (reset s) = reset s ∧
    reset s = defState ∧
    (reset s).sim_active = false ∧ (reset s).sim_step = 0 ∧
    (reset s).mast_day = 1.0 ∧ (reset s).flow_z1 = 30.0 ∧
    (reset s).flow_z2 = 25.0 ∧ (reset s).hist_t = [0.0] ∧
    (reset s).hist_co2_z1 = [420.0] ∧ (reset s).hist_nh3_z1 = [0.2] ∧
    (reset s).hist_co2_z2 = [420.0] ∧ (reset s).hist_nh3_z2 = [0.2] ∧
    (reset s).hist_flow_z1 = [30.0] := by
  repeat exact ⟨rfl, by repeat first | exact rfl | refine ⟨rfl, ?_⟩⟩

/-- C7: airflow floor. -/
theorem fan_m3h_ge_one (pct vol : ℝ) (mq : Option ℝ) : 1 ≤ fan_m3h pct vol mq := by
  have h : fan_m3h pct vol mq = max (pct / 100.0 * (mq.getD (vol * 6.0))) 1.0 := rfl
  rw [h, le_max_iff]
  right
  norm_num

/-- C7 — "For every airflow_percent (including 0) and every positive zone
volume, the airflow computed in the mass-balance evaluator is at least
1.0 m³/h (`airflow = max(pct/100 × vol × 6, 1.0)`), so the division in
`calc_ppm` never divides by zero": the airflow is ≥ 1, in particular nonzero,
and at 0 % it is exactly the 1.0 m³/h floor. -/
theorem claim_C7_airflow_floor (pct vol : ℝ) (mq : Option ℝ) (hvol : 0 < vol) :
    1 ≤ fan_m3h pct vol mq ∧ fan_m3h pct vol mq ≠ 0 ∧ fan_m3h 0 vol none = 1 := by
  have h1 := fan_m3h_ge_one pct vol mq
  refine ⟨h1, by positivity, ?_⟩
  unfold fan_m3h
  simp only [Option.getD]
  rw [max_eq_right] <;> norm_num

/-- C7 witness at pct = 0, vol = VOL_Z1. -/
theorem claim_C7_airflow_floor_witness :
    (0 : ℝ) < VOL_Z1 ∧ 1 ≤ fan_m3h 0 VOL_Z1 none :=
  ⟨by norm_num [VOL_Z1, Z1_L, Z1_B, Z1_H],
   (claim_C7_airflow_floor 0 VOL_Z1 none
      (by norm_num [VOL_Z1, Z1_L, Z1_B, Z1_H])).1⟩

/-- Rounding to one decimal is monotone. -/
theorem roundTo1_mono {x y : ℝ} (h : x ≤ y) : roundTo1 x ≤ roundTo1 y := by
  unfold roundTo1
  have h10 : round (10 * x) ≤ round (10 * y) := by
    rw [round_eq, round_eq]
    exact Int.floor_le_floor (by linarith)
  have h10' : ((round (10 * x) : ℤ) : ℝ) ≤ ((round (10 * y) : ℤ) : ℝ) :=
    Int.cast_le.mpr h10
  linarith

/-- Rounding to one decimal fixes exact multiples of 0.1. -/
theorem roundTo1_tenth (k : ℤ) : roundTo1 ((k : ℝ) / 10) = (k : ℝ) / 10 := by
  unfold roundTo1
  have h : (10 : ℝ) * ((k : ℝ) / 10) = (k : ℝ) := by ring
  rw [h, round_intCast]

/-- `fan_m3h` is monotone in the percentage (default capacity `vol * 6`). -/
theorem fan_m3h_mono_pct {vol : ℝ} (hvol : 0 ≤ vol) {p1 p2 : ℝ} (h : p1 ≤ p2) :
    fan_m3h p1 vol none ≤ fan_m3h p2 vol none := by
  have e1 : fan_m3h p1 vol none = max (p1 / 100.0 * (vol * 6.0)) 1.0 := rfl
  have e2 : fan_m3h p2 vol none = max (p2 / 100.0 * (vol * 6.0)) 1.0 := rfl
  rw [e1, e2]
  have : p1 / 100.0 * (vol * 6.0) ≤ p2 / 100.0 * (vol * 6.0) := by
    have h6 : (0 : ℝ) ≤ vol * 6.0 := by positivity
    have : p1 / 100.0 ≤ p2 / 100.0 := by linarith
    exact mul_le_mul_of_nonneg_right this h6
  exact max_le_max this le_rfl

/-- C3 counterexample — `calc_ppm` is NOT strictly decreasing in
airflow_percent over all of (0,100]: in a 1 m³ zone, 1 % and 2 % airflow are
both clamped to the 1.0 m³/h floor, so the ppm values are equal (with positive
mass 1000 kg, rate 0.125, density 1.842, ambient 420). -/
theorem claim_C3_counterexample :
    calc_ppm 1000 0.125 1.842 2 1 420 = calc_ppm 1000 0.125 1.842 1 1 420 := by
  have h : fan_m3h 2 1 none = fan_m3h 1 1 none := by
    have e1 : fan_m3h 2 1 none = max ((2 : ℝ) / 100.0 * (1 * 6.0)) 1.0 := rfl
    have e2 : fan_m3h 1 1 none = max ((1 : ℝ) / 100.0 * (1 * 6.0)) 1.0 := rfl
    rw [e1, e2, max_eq_right (by norm_num), max_eq_right (by norm_num)]
  unfold calc_ppm
  rw [h]

/-- C3 amended — `calc_ppm` is monotonically non-increasing in
airflow_percent (strict decrease fails where the 1.0 m³/h airflow floor binds,
and where rounding to one decimal collapses the difference), and monotonically
non-decreasing in substrate mass and in rate. -/
theorem claim_C3_monotonicity :
    (∀ m r rho vol amb p1 p2, 0 ≤ m → 0 ≤ r → 0 < rho → 0 ≤ vol → p1 ≤ p2 →
        calc_ppm m r rho p2 vol amb ≤ calc_ppm m r rho p1 vol amb) ∧
    (∀ m1 m2 r rho p vol amb, 0 ≤ r → 0 < rho → m1 ≤ m2 →
        calc_ppm m1 r rho p vol amb ≤ calc_ppm m2 r rho p vol amb) ∧
    (∀ m r1 r2 rho p vol amb, 0 ≤ m → 0 < rho → r1 ≤ r2 →
        calc_ppm m r1 rho p vol amb ≤ calc_ppm m r2 rho p vol amb) := by
  refine ⟨fun m r rho vol amb p1 p2 hm hr hrho hvol hp => ?_,
    fun m1 m2 r rho p vol amb hr hrho hm => ?_,
    fun m r1 r2 rho p vol amb hm hrho hr => ?_⟩
  · have hE : 0 ≤ m * r / 1000.0 / rho := by positivity
    have hQ1 : (0 : ℝ) < fan_m3h p1 vol none :=
      lt_of_lt_of_le one_pos (fan_m3h_ge_one p1 vol none)
    have hQQ : fan_m3h p1 vol none ≤ fan_m3h p2 vol none := fan_m3h_mono_pct hvol hp
    apply roundTo1_mono
    gcongr
  · have hQ : (0 : ℝ) < fan_m3h p vol none :=
      lt_of_lt_of_le one_pos (fan_m3h_ge_one p vol none)
    apply roundTo1_mono
    gcongr
  · have hQ : (0 : ℝ) < fan_m3h p vol none :=
      lt_of_lt_of_le one_pos (fan_m3h_ge_one p vol none)
    apply roundTo1_mono
    gcongr

/-- C3 amended witness at nominal Zone-01 inputs. -/
theorem claim_C3_monotonicity_witness :
    calc_ppm 51858 0.125 1.842 40 VOL_Z1 420 ≤ calc_ppm 51858 0.125 1.842 20 VOL_Z1 420 :=
  claim_C3_monotonicity.1 51858 0.125 1.842 VOL_Z1 420 20 40 (by norm_num)
    (by norm_num) (by norm_num) (by norm_num [VOL_Z1, Z1_L, Z1_B, Z1_H]) (by norm_num)

/-- C10 — `calc_ppm` never reports below its ambient argument: for
nonnegative mass and rate, positive density and volume, and an ambient that is
an exact multiple of 0.1 (as at every call site), the rounded steady-state ppm
is at least the ambient. -/
theorem claim_C10_ambient_floor (m r rho p vol : ℝ) (k : ℤ)
    (hm : 0 ≤ m) (hr : 0 ≤ r) (hrho : 0 < rho) (hvol : 0 < vol) :
    (k : ℝ) / 10 ≤ calc_ppm m r rho p vol ((k : ℝ) / 10) := by
  have hQ : (0 : ℝ) < fan_m3h p vol none :=
    lt_of_lt_of_le one_pos (fan_m3h_ge_one p vol none)
  have hterm : 0 ≤ m * r / 1000.0 / rho / fan_m3h p vol none * 1000000 := by
    positivity
  have h : (k : ℝ) / 10 ≤
      (k : ℝ) / 10 + m * r / 1000.0 / rho / fan_m3h p vol none * 1000000 := by
    linarith
  calc (k : ℝ) / 10 = roundTo1 ((k : ℝ) / 10) := (roundTo1_tenth k).symm
    _ ≤ roundTo1 ((k : ℝ) / 10 +
        m * r / 1000.0 / rho / fan_m3h p vol none * 1000000) := roundTo1_mono h
    _ = calc_ppm m r rho p vol ((k : ℝ) / 10) := rfl

/-- C10 witness: Zone-01 CO2 reading at 20 % airflow stays above the 420 ppm
ambient (420 = 4200/10). -/
theorem claim_C10_ambient_floor_witness :
    ((4200 : ℤ) : ℝ) / 10 ≤ calc_ppm 51858 0.125 1.842 20 VOL_Z1 (((4200 : ℤ) : ℝ) / 10) :=
  claim_C10_ambient_floor 51858 0.125 1.842 20 VOL_Z1 4200 (by norm_num)
    (by norm_num) (by norm_num) (by norm_num [VOL_Z1, Z1_L, Z1_B, Z1_H])

/-- Rounding to one decimal moves a value by at most 0.05. -/
theorem roundTo1_close (x : ℝ) : |roundTo1 x - x| ≤ 0.05 := by
  unfold roundTo1
  have h := abs_sub_round (10 * x)
  rw [abs_le] at h ⊢
  constructor <;> [linarith [h.1, h.2]; linarith [h.1, h.2]]

/-- The CO2 rate at day 8 (x = 1, sin(π) = 0) is exactly the 0.3 floor. -/
theorem co2_rate_day8 : co2_rate_g_kg_h 8 (some CO2_RATE_AVG) = 0.0375 := by
  unfold co2_rate_g_kg_h CO2_DAYS CO2_RATE_AVG
  simp only [Option.getD_some]
  rw [show π * ((8 : ℝ) / 8) = π by ring, Real.sin_pi,
    Real.zero_rpow (by norm_num)]
  norm_num

/-- `autopilot_flow` returns 100 whenever the CO2 reading is above the alarm
threshold. -/
theorem autopilot_flow_alarm {co2 : ℝ} (nh3 d b : ℝ) (h : CO2_S3 < co2) :
    autopilot_flow co2 nh3 d b = 100 := by
  unfold autopilot_flow
  rw [if_pos (Or.inl h)]

/-- Closed form of `macro_co2` in Zone 01 at day 8. -/
theorem macro_co2_z1_day8 (M F : ℝ) : macro_co2 M F VOL_Z1 8 none =
    roundTo1 (CO2_AMBIENT +
      M * co2_rate_g_kg_h 8 (some CO2_RATE_AVG) / 1000.0 / RHO_CO2 /
        fan_m3h F VOL_Z1 none * 1000000) := rfl

theorem fan_m3h_z1_0 : fan_m3h 0 VOL_Z1 none = 1 := by
  have e : fan_m3h 0 VOL_Z1 none = max ((0 : ℝ) / 100.0 * (VOL_Z1 * 6.0)) 1.0 := rfl
  rw [e, max_eq_right (by norm_num)]
  norm_num

theorem fan_m3h_z1_100 : fan_m3h 100 VOL_Z1 none = VOL_Z1 * 6.0 := by
  have e : fan_m3h 100 VOL_Z1 none = max ((100 : ℝ) / 100.0 * (VOL_Z1 * 6.0)) 1.0 := rfl
  rw [e, max_eq_left (by norm_num [VOL_Z1, Z1_L, Z1_B, Z1_H])]
  norm_num

theorem fan_m3h_z1_30 : fan_m3h 30 VOL_Z1 none = 30 / 100.0 * (VOL_Z1 * 6.0) := by
  have e : fan_m3h 30 VOL_Z1 none = max ((30 : ℝ) / 100.0 * (VOL_Z1 * 6.0)) 1.0 := rfl
  rw [e, max_eq_left (by norm_num [VOL_Z1, Z1_L, Z1_B, Z1_H])]

/-- At day 8 with airflow 0 %, the Zone-01 CO2 reading exceeds the alarm
threshold (the 1 m³/h floor concentrates the entire emission). -/
theorem macro_co2_z1_day8_flow0_big :
    CO2_S3 < macro_co2 (51.858 * 1000) 0 VOL_Z1 8 none := by
  rw [macro_co2_z1_day8, co2_rate_day8, fan_m3h_z1_0]
  have hc := roundTo1_close (CO2_AMBIENT +
    51.858 * 1000 * 0.0375 / 1000.0 / RHO_CO2 / 1 * 1000000)
  rw [abs_le] at hc
  have hv : (1000000 : ℝ) ≤ CO2_AMBIENT +
      51.858 * 1000 * 0.0375 / 1000.0 / RHO_CO2 / 1 * 1000000 := by
    norm_num [CO2_AMBIENT, RHO_CO2]
  unfold CO2_S3
  linarith [hc.1, hc.2]

/-- At day 8 with airflow 100 %, the Zone-01 CO2 reading is below 650 ppm. -/
theorem macro_co2_z1_day8_flow100_le :
    macro_co2 (51.858 * 1000) 100 VOL_Z1 8 none ≤ 650 := by
  rw [macro_co2_z1_day8, co2_rate_day8, fan_m3h_z1_100]
  have hc := roundTo1_close (CO2_AMBIENT +
    51.858 * 1000 * 0.0375 / 1000.0 / RHO_CO2 / (VOL_Z1 * 6.0) * 1000000)
  rw [abs_le] at hc
  have hv : CO2_AMBIENT +
      51.858 * 1000 * 0.0375 / 1000.0 / RHO_CO2 / (VOL_Z1 * 6.0) * 1000000 ≤ 645 := by
    norm_num [CO2_AMBIENT, RHO_CO2, VOL_Z1, Z1_L, Z1_B, Z1_H]
  linarith [hc.1, hc.2]

/-- At day 8 with airflow 30 %, the Zone-01 CO2 reading is above 700 ppm. -/
theorem macro_co2_z1_day8_flow30_ge :
    700 ≤ macro_co2 (51.858 * 1000) 30 VOL_Z1 8 none := by
  rw [macro_co2_z1_day8, co2_rate_day8, fan_m3h_z1_30]
  have hc := roundTo1_close (CO2_AMBIENT +
    51.858 * 1000 * 0.0375 / 1000.0 / RHO_CO2 / (30 / 100.0 * (VOL_Z1 * 6.0)) * 1000000)
  rw [abs_le] at hc
  have hv : (1100 : ℝ) ≤ CO2_AMBIENT +
      51.858 * 1000 * 0.0375 / 1000.0 / RHO_CO2 /
        (30 / 100.0 * (VOL_Z1 * 6.0)) * 1000000 := by
    norm_num [CO2_AMBIENT, RHO_CO2, VOL_Z1, Z1_L, Z1_B, Z1_H]
  linarith [hc.1, hc.2]

/-- `appendTrim` is a plain append while the buffer is below capacity. -/
theorem appendTrim_of_small {α : Type} (l : List α) (v : α)
    (h : l.length + 1 ≤ 200) : appendTrim l v = l ++ [v] := by
  unfold appendTrim
  rw [if_neg]
  simp only [List.length_append, List.length_singleton]
  omega

/-- C1 counterexample — the tick does NOT record ppm computed from the
previous tick's airflow: at `preTickState` (previous airflow 30 %) the code
stages on ppm evaluated at 0 % airflow, obtains 100 %, and records
`macro_co2` at 100 % (≤ 650 ppm), whereas the claim's value — `macro_co2` at
the previous 30 % airflow — is ≥ 700 ppm. -/
theorem claim_C1_counterexample :
    (tick 51.858 7.56 preTickState).hist_co2_z1 ≠
      appendTrim preTickState.hist_co2_z1
        (macro_co2 (51.858 * 1000) preTickState.flow_z1 VOL_Z1
          ((tick 51.858 7.56 preTickState).mast_day) none) := by
  have hd8 : min 8.0 (1.0 + ((119 + 1 : ℕ) : ℝ) * (7.0 / 120.0)) = 8 := by
    push_cast
    rw [min_eq_right] <;> norm_num
  have hd : (tick 51.858 7.56 preTickState).mast_day = 8 := by
    have e : (tick 51.858 7.56 preTickState).mast_day =
        min 8.0 (1.0 + ((119 + 1 : ℕ) : ℝ) * (7.0 / 120.0)) := rfl
    rw [e, hd8]
  have ehist : (tick 51.858 7.56 preTickState).hist_co2_z1 =
      appendTrim [(420 : ℝ)]
        (macro_co2 (51.858 * 1000)
          (autopilot_flow
            (macro_co2 (51.858 * 1000) 0 VOL_Z1
              (min 8.0 (1.0 + ((119 + 1 : ℕ) : ℝ) * (7.0 / 120.0))) none)
            (macro_nh3 (51.858 * 1000) 0 VOL_Z1
              (min 8.0 (1.0 + ((119 + 1 : ℕ) : ℝ) * (7.0 / 120.0))) none)
            (min 8.0 (1.0 + ((119 + 1 : ℕ) : ℝ) * (7.0 / 120.0))) 28.0)
          VOL_Z1 (min 8.0 (1.0 + ((119 + 1 : ℕ) : ℝ) * (7.0 / 120.0))) none) := rfl
  rw [hd8] at ehist
  rw [autopilot_flow_alarm _ _ _ macro_co2_z1_day8_flow0_big] at ehist
  rw [appendTrim_of_small _ _ (by norm_num)] at ehist
  intro hcontra
  rw [ehist, hd] at hcontra
  have hpre1 : preTickState.hist_co2_z1 = [(420 : ℝ)] := rfl
  have hpre2 : preTickState.flow_z1 = 30 := rfl
  rw [hpre1, hpre2, appendTrim_of_small _ _ (by norm_num)] at hcontra
  simp only [List.cons_append, List.nil_append, List.cons.injEq] at hcontra
  have heq : macro_co2 (51.858 * 1000) 100 VOL_Z1 8 none =
      macro_co2 (51.858 * 1000) 30 VOL_Z1 8 none := hcontra.2.1
  linarith [macro_co2_z1_day8_flow100_le, macro_co2_z1_day8_flow30_ge]

/-- C1 amended — on an active tick the step: (i) advances `mast_day` by the
fixed increment 7/120 clamped at 8.0; (ii) computes the NEXT airflow first,
by staging the ppm evaluated at 0 % airflow (not the previous tick's
airflow); (iii) then recomputes both zones' ppm using that freshly computed
airflow; (iv) appends one sample per history series. -/
theorem claim_C1_tick_order (m1 m2 : ℝ) (s : SimState) :
    (tick m1 m2 s).sim_step = s.sim_step + 1 ∧
    (tick m1 m2 s).mast_day =
      min 8.0 (1.0 + ((s.sim_step + 1 : ℕ) : ℝ) * (7.0 / 120.0)) ∧
    (tick m1 m2 s).flow_z1 =
      autopilot_flow
        (macro_co2 (m1 * 1000) 0 VOL_Z1 (tick m1 m2 s).mast_day none)
        (macro_nh3 (m1 * 1000) 0 VOL_Z1 (tick m1 m2 s).mast_day none)
        (tick m1 m2 s).mast_day 28.0 ∧
    (tick m1 m2 s).flow_z2 =
      autopilot_flow
        (macro_co2 (m2 * 1000) 0 VOL_Z2 (tick m1 m2 s).mast_day none)
        (macro_nh3 (m2 * 1000) 0 VOL_Z2 (tick m1 m2 s).mast_day none)
        (tick m1 m2 s).mast_day 22.0 ∧
    (tick m1 m2 s).hist_co2_z1 = appendTrim s.hist_co2_z1
      (macro_co2 (m1 * 1000) (tick m1 m2 s).flow_z1 VOL_Z1
        (tick m1 m2 s).mast_day none) ∧
    (tick m1 m2 s).hist_nh3_z1 = appendTrim s.hist_nh3_z1
      (macro_nh3 (m1 * 1000) (tick m1 m2 s).flow_z1 VOL_Z1
        (tick m1 m2 s).mast_day none) ∧
    (tick m1 m2 s).hist_co2_z2 = appendTrim s.hist_co2_z2
      (macro_co2 (m2 * 1000) (tick m1 m2 s).flow_z2 VOL_Z2
        (tick m1 m2 s).mast_day none) ∧
    (tick m1 m2 s).hist_nh3_z2 = appendTrim s.hist_nh3_z2
      (macro_nh3 (m2 * 1000) (tick m1 m2 s).flow_z2 VOL_Z2
        (tick m1 m2 s).mast_day none) ∧
    (tick m1 m2 s).hist_t = appendTrim s.hist_t
      (((s.sim_step + 1 : ℕ) : ℝ) * 0.25 / 60.0) ∧
    (tick m1 m2 s).hist_flow_z1 = appendTrim s.hist_flow_z1 (tick m1 m2 s).flow_z1 ∧
    (tick m1 m2 s).sim_active = s.sim_active ∧
    (s.mast_day = min 8.0 (1.0 + (s.sim_step : ℝ) * (7.0 / 120.0)) →
      (tick m1 m2 s).mast_day = min 8.0 (s.mast_day + 7.0 / 120.0)) := by
  refine ⟨rfl, rfl, rfl, rfl, rfl, rfl, rfl, rfl, rfl, rfl, rfl, fun h => ?_⟩
  have e : (tick m1 m2 s).mast_day =
      min 8.0 (1.0 + ((s.sim_step + 1 : ℕ) : ℝ) * (7.0 / 120.0)) := rfl
  rw [e, h]
  push_cast
  rcases le_total (1.0 + (s.sim_step : ℝ) * (7.0 / 120.0)) 8.0 with h8 | h8
  · rw [min_eq_right h8]
    congr 1
    ring
  · have hL : (8.0 : ℝ) ≤ 1.0 + ((s.sim_step : ℝ) + 1) * (7.0 / 120.0) := by
      nlinarith
    rw [min_eq_left hL, min_eq_left h8, min_eq_left (by norm_num)]

/-- C1 amended witness: the mast_day advance property at the initial state. -/
theorem claim_C1_tick_order_witness :
    defState.mast_day = min 8.0 (1.0 + (defState.sim_step : ℝ) * (7.0 / 120.0)) ∧
    (tick 1 1 defState).mast_day = min 8.0 (defState.mast_day + 7.0 / 120.0) := by
  have h : defState.mast_day =
      min 8.0 (1.0 + (defState.sim_step : ℝ) * (7.0 / 120.0)) := by
    show (1.0 : ℝ) = min 8.0 (1.0 + ((0 : ℕ) : ℝ) * (7.0 / 120.0))
    rw [min_eq_right] <;> norm_num
  exact ⟨h, (claim_C1_tick_order 1 1 defState).2.2.2.2.2.2.2.2.2.2.2 h⟩

/-- C2 counterexample — at a reading exactly equal to a stage threshold the
code returns the LOWER stage, because all comparisons are strict `>`:
at `co2 = CO2_S1 = 3000` (nh3 = 0) the stage is 0, not 1, and the autopilot
keeps the baseline instead of switching to 40 %. -/
theorem claim_C2_counterexample :
    (fan_stage CO2_S1 0).1 = 0 ∧ (get_stufe CO2_S1 0).1 = 0 ∧
      autopilot_flow CO2_S1 0 5 20 = 20 := by
  refine ⟨?_, ?_, ?_⟩ <;>
    norm_num [fan_stage, get_stufe, autopilot_flow,
      CO2_S1, CO2_S2, CO2_S3, NH3_S1, NH3_S2, NH3_S3]

/-- C2 amended — the comparison is strict `>`, not `≥`: at exact threshold
equality every staging function selects the LOWER stage, and only a strictly
larger reading escalates. -/
theorem claim_C2_strict_thresholds :
    ((fan_stage CO2_S1 NH3_S1).1 = 0 ∧ (fan_stage CO2_S2 NH3_S2).1 = 1 ∧
       (fan_stage CO2_S3 NH3_S3).1 = 2) ∧
    ((get_stufe CO2_S1 NH3_S1).1 = 0 ∧ (get_stufe CO2_S2 NH3_S2).1 = 1 ∧
       (get_stufe CO2_S3 NH3_S3).1 = 2) ∧
    (∀ d b, autopilot_flow CO2_S1 NH3_S1 d b = b ∧
       autopilot_flow CO2_S2 NH3_S2 d b = 40 ∧
       autopilot_flow CO2_S3 NH3_S3 d b = 70) ∧
    (∀ co2 nh3, CO2_S3 < co2 ∨ NH3_S3 < nh3 → (fan_stage co2 nh3).1 = 3) := by
  refine ⟨⟨?_, ?_, ?_⟩, ⟨?_, ?_, ?_⟩, fun d b => ⟨?_, ?_, ?_⟩, fun co2 nh3 h => ?_⟩
  · norm_num [fan_stage, CO2_S1, CO2_S2, CO2_S3, NH3_S1, NH3_S2, NH3_S3]
  · norm_num [fan_stage, CO2_S1, CO2_S2, CO2_S3, NH3_S1, NH3_S2, NH3_S3]
  · norm_num [fan_stage, CO2_S1, CO2_S2, CO2_S3, NH3_S1, NH3_S2, NH3_S3]
  · norm_num [get_stufe, CO2_S1, CO2_S2, CO2_S3, NH3_S1, NH3_S2, NH3_S3]
  · norm_num [get_stufe, CO2_S1, CO2_S2, CO2_S3, NH3_S1, NH3_S2, NH3_S3]
  · norm_num [get_stufe, CO2_S1, CO2_S2, CO2_S3, NH3_S1, NH3_S2, NH3_S3]
  · norm_num [autopilot_flow, CO2_S1, CO2_S2, CO2_S3, NH3_S1, NH3_S2, NH3_S3]
  · norm_num [autopilot_flow, CO2_S1, CO2_S2, CO2_S3, NH3_S1, NH3_S2, NH3_S3]
  · norm_num [autopilot_flow, CO2_S1, CO2_S2, CO2_S3, NH3_S1, NH3_S2, NH3_S3]
  · unfold fan_stage
    rw [if_pos h]

/-- C2 amended witness: escalation strictly above the alarm threshold. -/
theorem claim_C2_strict_thresholds_witness :
    (fan_stage 10001 0).1 = 3 :=
  claim_C2_strict_thresholds.2.2.2 10001 0 (by norm_num [CO2_S3])

/-- Numeric bound √2 < 1.4143. -/
theorem sqrt2_lt : Real.sqrt 2 < 1.4143 := by
  rw [Real.sqrt_lt' (by norm_num)]
  norm_num

/-- Numeric bound 1.414 < √2. -/
theorem lt_sqrt2 : (1.414 : ℝ) < Real.sqrt 2 := by
  rw [Real.lt_sqrt (by norm_num)]
  norm_num

theorem sin_pi8_pos : 0 < Real.sin (π / 8) :=
  Real.sin_pos_of_pos_of_lt_pi (by positivity) (by linarith [Real.pi_pos])

theorem sin_pi8_sq : Real.sin (π / 8) ^ 2 = (2 - Real.sqrt 2) / 4 := by
  rw [Real.sin_pi_div_eight, div_pow, Real.sq_sqrt (by nlinarith [sqrt2_lt])]
  norm_num

/-- Two-sided bounds on `co2_rate` at day 1: the value is ≈ 0.097 (the spec's
0.0375 would require x = 0, i.e. day 0, but day 1 gives x = 1/8). -/
theorem co2_rate_day1_bounds :
    0.086 < co2_rate_g_kg_h 1 (some 0.125) ∧ co2_rate_g_kg_h 1 (some 0.125) < 0.17 := by
  have e : co2_rate_g_kg_h 1 (some 0.125) =
      0.125 * (0.3 + 2.7 * Real.sin (π / 8) ^ (1.8 : ℝ)) := by
    unfold co2_rate_g_kg_h CO2_DAYS
    simp only [Option.getD_some]
    rw [show π * ((1 : ℝ) / 8) = π / 8 by ring]
  have hpos := sin_pi8_pos
  have hle1 := Real.sin_le_one (π / 8)
  have hsq := sin_pi8_sq
  have h2lo := lt_sqrt2
  have h2hi := sqrt2_lt
  have hlow : Real.sin (π / 8) ^ (2 : ℕ) ≤ Real.sin (π / 8) ^ (1.8 : ℝ) := by
    have h := Real.rpow_le_rpow_of_exponent_ge hpos hle1 (show (1.8 : ℝ) ≤ 2 by norm_num)
    rwa [show ((2 : ℝ)) = ((2 : ℕ) : ℝ) by norm_num, Real.rpow_natCast] at h
  have hupp : Real.sin (π / 8) ^ (1.8 : ℝ) ≤ Real.sin (π / 8) := by
    have h := Real.rpow_le_rpow_of_exponent_ge hpos hle1 (show (1 : ℝ) ≤ 1.8 by norm_num)
    rwa [Real.rpow_one] at h
  have hs_lt : Real.sin (π / 8) < 0.3828 := by nlinarith
  constructor
  · rw [e]; nlinarith
  · rw [e]; nlinarith

/-- C4 counterexample — `co2_rate(day=1, base_rate=0.125)` is NOT ≈ 0.0375:
it exceeds twice that value, because day 1 corresponds to x = 1/8 (factor
0.3 + 2.7·sin(π/8)^1.8 ≈ 0.78), not x = 0 (factor 0.3). -/
theorem claim_C4_counterexample : 2 * 0.0375 < co2_rate_g_kg_h 1 (some 0.125) := by
  have h := co2_rate_day1_bounds.1
  linarith

/-- C4 amended — the peak value is as claimed
(`co2_rate(4, 0.125) = 0.375`, x = 0.5), but the value 0.0375 (factor 0.3,
x = 0) is attained at day 0, not day 1; at day 1 the rate lies in
(0.086, 0.17) (≈ 0.097). -/
theorem claim_C4_co2_boundary :
    co2_rate_g_kg_h 4 (some 0.125) = 0.375 ∧
    co2_rate_g_kg_h 0 (some 0.125) = 0.0375 ∧
    0.086 < co2_rate_g_kg_h 1 (some 0.125) ∧
    co2_rate_g_kg_h 1 (some 0.125) < 0.17 := by
  refine ⟨?_, ?_, co2_rate_day1_bounds.1, co2_rate_day1_bounds.2⟩
  · unfold co2_rate_g_kg_h CO2_DAYS
    simp only [Option.getD_some]
    rw [show π * ((4 : ℝ) / 8) = π / 2 by ring, Real.sin_pi_div_two, Real.one_rpow]
    norm_num
  · unfold co2_rate_g_kg_h CO2_DAYS
    simp only [Option.getD_some]
    rw [show π * ((0 : ℝ) / 8) = 0 by ring, Real.sin_zero,
      Real.zero_rpow (by norm_num)]
    norm_num

/-- C5 — the two branches of the NH3 rate agree at the breakpoint
day = 3.6 (x = 0.45): both equal `1.5 × base_rate` exactly, the piecewise
function takes that common value, the two branch formulas at base 1.0 agree
to within 1e-9 (they are equal), and the NH3 rate is in fact a continuous
function of the day. -/
theorem claim_C5_nh3_breakpoint (b : ℝ) :
    nh3_lin_branch 3.6 b = 1.5 * b ∧
    nh3_exp_branch 3.6 b = 1.5 * b ∧
    nh3_rate_g_kg_h 3.6 (some b) = 1.5 * b ∧
    |nh3_lin_branch 3.6 1 - nh3_exp_branch 3.6 1| ≤ 1e-9 ∧
    Continuous (fun day => nh3_rate_g_kg_h day (some b)) := by
  have hlin : ∀ c : ℝ, nh3_lin_branch 3.6 c = 1.5 * c := by
    intro c
    unfold nh3_lin_branch CO2_DAYS
    norm_num
    ring
  have hexp : ∀ c : ℝ, nh3_exp_branch 3.6 c = 1.5 * c := by
    intro c
    unfold nh3_exp_branch CO2_DAYS
    rw [show (2.6 : ℝ) * (3.6 / 8 - 0.45) = 0 by norm_num, Real.exp_zero]
    ring
  refine ⟨hlin b, hexp b, ?_, ?_, ?_⟩
  · unfold nh3_rate_g_kg_h CO2_DAYS
    simp only [Option.getD_some]
    rw [if_neg (by norm_num)]
    rw [show (2.6 : ℝ) * (3.6 / 8 - 0.45) = 0 by norm_num, Real.exp_zero]
    ring
  · rw [hlin 1, hexp 1]
    norm_num
  · have e : (fun day => nh3_rate_g_kg_h day (some b)) =
        fun day => if day / CO2_DAYS < 0.45
          then b * (1.0 + 0.5 * (day / CO2_DAYS) / 0.45)
          else b * 1.5 * Real.exp (2.6 * (day / CO2_DAYS - 0.45)) := rfl
    rw [e]
    apply Continuous.if
    · intro a ha
      have hset : {x : ℝ | x / CO2_DAYS < 0.45} = Set.Iio 3.6 := by
        ext x
        simp only [Set.mem_setOf_eq, Set.mem_Iio, CO2_DAYS]
        constructor <;> intro h <;> linarith
      rw [hset, frontier_Iio, Set.mem_singleton_iff] at ha
      subst ha
      rw [show (2.6 : ℝ) * (3.6 / CO2_DAYS - 0.45) = 0 by norm_num [CO2_DAYS],
        Real.exp_zero]
      norm_num [CO2_DAYS]
    · fun_prop
    · fun_prop

/-- C9 — the three staging functions are mutually consistent: `fan_stage` and
`get_stufe` classify identically, `autopilot_flow` ignores its `day` argument,
and it returns the classified stage's fan percent (100/70/40) for stages 3/2/1
and the baseline for stage 0. -/
theorem claim_C9_staging_consistent (co2 nh3 d1 d2 b : ℝ) :
    (fan_stage co2 nh3).1 = (get_stufe co2 nh3).1 ∧
    autopilot_flow co2 nh3 d1 b = autopilot_flow co2 nh3 d2 b ∧
    autopilot_flow co2 nh3 d1 b =
      (if (fan_stage co2 nh3).1 = 0 then b else (fan_stage co2 nh3).2.2.2) := by
  unfold fan_stage get_stufe autopilot_flow
  split_ifs <;> simp_all

end BSFGasSim
